import Mathlib

/-!
Shallow embedding of `src/game/groundlayer.ts` (js13kGames/knight-dreams):
the procedural ground-strip generator (`GroundLayer`) with its slope, type
and decoration sub-generators, the per-tile ring write, and the collision
probe.  JavaScript numbers appearing here are always used as integers by
the source, so they are modelled as `Int`; the `Math.random()` value used
for the bridge roll is modelled as a rational in `[0, 1)`.  Randomness is
modelled by a per-tick record of draw results (`RandTick`): each call site
of `sampleUniform` / `Math.random()` in one update consumes its own field,
and `RandTick.Valid` states the ranges the real draws satisfy.  The mutable
cross-layer reference (`this.ref`) is a live object reference in the
source; an update call here receives the referenced layer's state at the
time of the call as an explicit `Option GroundLayer` argument.
-/

/-- Tile type enum from the source (`TileType`): `None = 0`, `Surface = 1`,
`Bridge = 2`. -/
inductive TileType where
  | none
  | surface
  | bridge
deriving DecidableEq, Repr

/-- Slope direction enum from the source (`SlopeDirection`): `Up = -1`,
`None = 0`, `Down = 1`. -/
inductive SlopeDirection where
  | up
  | none
  | down
deriving DecidableEq, Repr

/-- Numeric value of a slope direction, as in the source where the enum is
used directly as a signed unit (`Up = -1`, `None = 0`, `Down = 1`). -/
def SlopeDirection.toInt : SlopeDirection → Int
  | .up => -1
  | .none => 0
  | .down => 1

/-- Negation of a slope direction (`this.activeSlope *= -1` in the source). -/
def SlopeDirection.neg : SlopeDirection → SlopeDirection
  | .up => .down
  | .none => .none
  | .down => .up

/-- Decoration enum from the source (`Decoration`): `None = 0`,
`Palmtree = 1`. -/
inductive Decoration where
  | none
  | palmtree
deriving DecidableEq, Repr

/-- Layer role enum from the source (`GroundLayerType`): `Foreground = 0`,
`Background = 1`. -/
inductive GroundLayerType where
  | foreground
  | background
deriving DecidableEq, Repr

/-- `export const BASE_SHIFT_X = 2`. -/
def BASE_SHIFT_X : Int := 2

/-- `const SLOPE_WAIT_MIN = 2`. -/
def SLOPE_WAIT_MIN : Int := 2

/-- `const SLOPE_WAIT_MAX = 12`. -/
def SLOPE_WAIT_MAX : Int := 12

/-- `const MIN_HEIGHT = [1, 2]`, indexed by layer role. -/
def MIN_HEIGHT : GroundLayerType → Int
  | .foreground => 1
  | .background => 2

/-- `const MAX_HEIGHT = [5, 4]`, indexed by layer role. -/
def MAX_HEIGHT : GroundLayerType → Int
  | .foreground => 5
  | .background => 4

/-- `const DECORATION_WAIT_MIN = 8`. -/
def DECORATION_WAIT_MIN : Int := 8

/-- `const DECORATION_WAIT_MAX = 16`. -/
def DECORATION_WAIT_MAX : Int := 16

/-- `const INITIAL_HEIGHT = [2, 0]` from the constructor, indexed by role. -/
def INITIAL_HEIGHT : GroundLayerType → Int
  | .foreground => 2
  | .background => 0

/-- `const INITIAL_TYPE = [TileType.Surface, TileType.None]` from the
constructor, indexed by role. -/
def INITIAL_TYPE : GroundLayerType → TileType
  | .foreground => .surface
  | .background => .none

/-- `const TYPE_WAIT_MIN = [[2, 2, 2], [4, 2, 0]]` from `updateType`,
indexed by layer role then by the numeric value of the new tile type. -/
def TYPE_WAIT_MIN : GroundLayerType → TileType → Int
  | .foreground, .none => 2
  | .foreground, .surface => 2
  | .foreground, .bridge => 2
  | .background, .none => 4
  | .background, .surface => 2
  | .background, .bridge => 0

/-- `const TYPE_WAIT_MAX = [[4, 16, 6], [16, 10, 0]]` from `updateType`,
indexed by layer role then by the numeric value of the new tile type. -/
def TYPE_WAIT_MAX : GroundLayerType → TileType → Int
  | .foreground, .none => 4
  | .foreground, .surface => 16
  | .foreground, .bridge => 6
  | .background, .none => 16
  | .background, .surface => 10
  | .background, .bridge => 0

/-- `const GAP_JUMP_MAX = 2` from `updateType`. -/
def GAP_JUMP_MAX : Int := 2

/-- `const BRIDGE_PROB = [0.33, 0]` from `updateType`, indexed by layer
role; the float literal `0.33` is written as the rational `33/100`. -/
def BRIDGE_PROB : GroundLayerType → ℚ
  | .foreground => 33 / 100
  | .background => 0

/-- `const SLOPE_DURATION_MIN = 1` from `updateSlope`. -/
def SLOPE_DURATION_MIN : Int := 1

/-- `const SLOPE_DURATION_MAX = 2` from `updateSlope`. -/
def SLOPE_DURATION_MAX : Int := 2

/-- Modelled from the spec: `clamp` from `src/common/math.ts`, which is not
under `src/`; the usual clamping of a value into `[lo, hi]`
(`Math.max(lo, Math.min(x, hi))`). -/
def clamp (x lo hi : Int) : Int := max lo (min x hi)

/-- Modelled from the spec: `negMod` from `src/common/math.ts`, which is
not under `src/`; wrap-around indexing into the ring
(`((m % n) + n) % n` with the JavaScript `%`, i.e. truncated remainder). -/
def negMod (m n : Int) : Int := (m.tmod n + n).tmod n

/-- One tick's worth of random-draw results.  Each field corresponds to
one call site of `sampleUniform` or `Math.random()` inside a single
`update` call; the two height redraw sites in `updateType` are in
mutually exclusive branches and share `heightDraw`, which receives the
bounds of the `sampleUniform` call. -/
structure RandTick where
  /-- Result of `sampleUniform(SLOPE_DURATION_MIN, SLOPE_DURATION_MAX)`. -/
  slopeDurDraw : Int
  /-- Result of `sampleUniform(SLOPE_WAIT_MIN, SLOPE_WAIT_MAX)` in `updateSlope`. -/
  slopeWaitDraw : Int
  /-- Whether `Math.random() < 0.5` held for the slope direction pick. -/
  slopeUpDraw : Bool
  /-- The `Math.random()` value compared against `BRIDGE_PROB`. -/
  bridgeDraw : ℚ
  /-- Result of the height `sampleUniform(a, b)` call in `updateType`. -/
  heightDraw : Int → Int → Int
  /-- Result of the type-wait `sampleUniform(a, b)` call in `updateType`. -/
  typeWaitDraw : Int → Int → Int
  /-- Result of `sampleUniform(DECORATION_WAIT_MIN, DECORATION_WAIT_MAX)`. -/
  decoDraw : Int

/-- Ranges that the real random draws always satisfy: `sampleUniform(a, b)`
returns an integer in `[a, b]` (for `a ≤ b`) and `Math.random()` returns a
value in `[0, 1)`. -/
def RandTick.Valid (r : RandTick) : Prop :=
  SLOPE_DURATION_MIN ≤ r.slopeDurDraw ∧ r.slopeDurDraw ≤ SLOPE_DURATION_MAX ∧
  SLOPE_WAIT_MIN ≤ r.slopeWaitDraw ∧ r.slopeWaitDraw ≤ SLOPE_WAIT_MAX ∧
  0 ≤ r.bridgeDraw ∧ r.bridgeDraw < 1 ∧
  (∀ a b : Int, a ≤ b → a ≤ r.heightDraw a b ∧ r.heightDraw a b ≤ b) ∧
  (∀ a b : Int, a ≤ b → a ≤ r.typeWaitDraw a b ∧ r.typeWaitDraw a b ≤ b) ∧
  DECORATION_WAIT_MIN ≤ r.decoDraw ∧ r.decoDraw ≤ DECORATION_WAIT_MAX

/-- State of one `GroundLayer` object: the four per-tile ring buffers and
the active scalar generator state.  The stored reference `this.ref` is not
a field here; the referenced layer's state is passed to each operation
that reads it (see the module docstring). -/
structure GroundLayer where
  height : List Int
  slope : List SlopeDirection
  type : List TileType
  decorations : List Decoration
  activeHeight : Int
  activeType : TileType
  typeWait : Int
  slopeWait : Int
  slopeDuration : Int
  activeSlope : SlopeDirection
  lastSlope : SlopeDirection
  gapTimer : Int
  decorationWait : Int
  layerType : GroundLayerType
  width : Nat
  shift : Int
deriving DecidableEq, Repr

namespace GroundLayer

/-- The constructor `new GroundLayer(width, type, shift)`.  The two
`sampleUniform` draws it performs are passed in as `slopeWaitDraw0`
(range `[SLOPE_WAIT_MIN, SLOPE_WAIT_MAX]`) and `decoWaitDraw0`
(range `[DECORATION_WAIT_MIN, DECORATION_WAIT_MAX]`). -/
def new (width : Nat) (ltype : GroundLayerType) (shift : Int)
    (slopeWaitDraw0 decoWaitDraw0 : Int) : GroundLayer :=
  { height := List.replicate width (INITIAL_HEIGHT ltype)
    slope := List.replicate width SlopeDirection.none
    type := List.replicate width (INITIAL_TYPE ltype)
    decorations := List.replicate width Decoration.none
    activeHeight := INITIAL_HEIGHT ltype
    activeType := INITIAL_TYPE ltype
    typeWait := 0
    slopeWait := slopeWaitDraw0
    slopeDuration := 0
    activeSlope := SlopeDirection.none
    lastSlope := SlopeDirection.none
    gapTimer := 0
    decorationWait := decoWaitDraw0
    layerType := ltype
    width := width
    shift := shift }

/-- `getHeightRange()`: the `[min, max]` height bounds for this layer; for
a background layer both bounds are shifted by `this.ref?.activeHeight ?? 0`. -/
def getHeightRange (s : GroundLayer) (ref : Option GroundLayer) : Int × Int :=
  match s.layerType with
  | .foreground => (MIN_HEIGHT s.layerType, MAX_HEIGHT s.layerType)
  | .background =>
      let rh := match ref with
        | some rr => rr.activeHeight
        | none => 0
      (MIN_HEIGHT s.layerType + rh, MAX_HEIGHT s.layerType + rh)

/-- Tail of `updateSlope` after the coupled-slope branch: the random slope
start (guarded by `activeType == Surface && typeWait >= 2 &&
(--slopeWait) <= 0`; note the JavaScript `&&` only decrements `slopeWait`
when the first two conjuncts hold) followed by the unconditional
`activeHeight -= activeSlope`. -/
def slopeRandomPart (r : RandTick) (mm : Int × Int) (s : GroundLayer) : GroundLayer :=
  if s.activeType = TileType.surface ∧ 2 ≤ s.typeWait then
    if s.slopeWait - 1 ≤ 0 then
      let dur := min (s.typeWait - 1) r.slopeDurDraw
      let dir0 := if r.slopeUpDraw then SlopeDirection.up else SlopeDirection.down
      let nextHeight := s.activeHeight - dir0.toInt * dur
      let dir := if nextHeight ≠ clamp nextHeight mm.1 mm.2 then dir0.neg else dir0
      { s with slopeDuration := dur
               slopeWait := (dur - 1) + r.slopeWaitDraw
               activeSlope := dir
               typeWait := s.typeWait + 1
               activeHeight := s.activeHeight - dir.toInt }
    else
      { s with slopeWait := s.slopeWait - 1
               activeHeight := s.activeHeight - s.activeSlope.toInt }
  else
    { s with activeHeight := s.activeHeight - s.activeSlope.toInt }

/-- `updateSlope()`: record `lastSlope`, decrement the slope duration and
clear the slope when it runs out, then either run the coupled-slope branch
(background layer with a reference, surface, height difference within 2
when the reference ascends else within 1) or fall through to the random
slope start and the height application. -/
def updateSlope (r : RandTick) (ref : Option GroundLayer) (s0 : GroundLayer) : GroundLayer :=
  let s1 := { s0 with lastSlope := s0.activeSlope
                      slopeDuration := s0.slopeDuration - 1
                      activeSlope := if s0.slopeDuration - 1 ≤ 0 then SlopeDirection.none
                                     else s0.activeSlope }
  let mm := s1.getHeightRange ref
  match ref with
  | some rr =>
      if s1.activeType = TileType.surface ∧ s1.layerType = GroundLayerType.background ∧
          ((rr.activeSlope = SlopeDirection.up ∧ s1.activeHeight - rr.activeHeight ≤ 2) ∨
            s1.activeHeight - rr.activeHeight ≤ 1) then
        { s1 with activeSlope := SlopeDirection.up
                  slopeWait := 2
                  slopeDuration := 0
                  activeHeight := s1.activeHeight - SlopeDirection.up.toInt
                  typeWait := s1.typeWait + 1 }
      else s1.slopeRandomPart r mm
  | none => s1.slopeRandomPart r mm

/-- `updateType()`: count gap ticks, decrement the type-hold timer
(`typeWait`), and when it runs out while the previous tick had no active
slope, transition the tile type (non-surface goes to surface, redrawing
the height for background layers; surface rolls bridge versus gap, with a
height redraw within `±GAP_JUMP_MAX` for a foreground gap) and redraw
`typeWait` from the role/type table. -/
def updateType (r : RandTick) (ref : Option GroundLayer) (s0 : GroundLayer) : GroundLayer :=
  let mm := s0.getHeightRange ref
  let s1 := if s0.activeType = TileType.none then { s0 with gapTimer := s0.gapTimer + 1 } else s0
  let s2 := { s1 with typeWait := s1.typeWait - 1 }
  if s2.typeWait ≤ 0 ∧ s2.lastSlope = SlopeDirection.none then
    if s2.activeType ≠ TileType.surface then
      let s3 := { s2 with activeType := TileType.surface, gapTimer := 0 }
      let s4 := if s3.layerType = GroundLayerType.background then
                  { s3 with activeHeight := r.heightDraw mm.1 mm.2 }
                else s3
      { s4 with typeWait := r.typeWaitDraw (TYPE_WAIT_MIN s4.layerType s4.activeType)
                              (TYPE_WAIT_MAX s4.layerType s4.activeType) }
    else
      let s3 := { s2 with activeType := if r.bridgeDraw < BRIDGE_PROB s2.layerType
                                        then TileType.bridge else TileType.none }
      let s4 := if s3.layerType = GroundLayerType.foreground ∧ s3.activeType = TileType.none then
                  let lo := max mm.1 (s3.activeHeight - GAP_JUMP_MAX)
                  let hi := min mm.2 (s3.activeHeight + GAP_JUMP_MAX)
                  { s3 with activeHeight := r.heightDraw lo hi }
                else s3
      { s4 with typeWait := r.typeWaitDraw (TYPE_WAIT_MIN s4.layerType s4.activeType)
                              (TYPE_WAIT_MAX s4.layerType s4.activeType) }
  else s2

/-- The `this.ref?.activeType !== TileType.None` test from
`updateDecorations`: with no reference set, `undefined !== 0` is `true`. -/
def refTypeNotNone : Option GroundLayer → Bool
  | some rr => if rr.activeType = TileType.none then false else true
  | none => true

/-- `updateDecorations(tilePointer)`: decrement the decoration wait (the
decrement happens even on the early return); when it has run out, place a
palm tree and re-arm the wait only if the tile is surface, flat, and not a
foreground layer whose referenced tile is other than the empty type.
Returns the new state and whether a decoration was placed. -/
def updateDecorations (r : RandTick) (ref : Option GroundLayer) (p : Nat)
    (s0 : GroundLayer) : GroundLayer × Bool :=
  let s1 := { s0 with decorationWait := s0.decorationWait - 1 }
  if 0 < s1.decorationWait then (s1, false)
  else if s1.activeType ≠ TileType.surface ∨ s1.activeSlope ≠ SlopeDirection.none ∨
      (s1.layerType = GroundLayerType.foreground ∧ refTypeNotNone ref = true) then
    (s1, false)
  else
    ({ s1 with decorations := s1.decorations.set p Decoration.palmtree
               decorationWait := r.decoDraw }, true)

/-- `update(tilePointer)`: run the slope, type and decoration
sub-generators in that order (clearing the decoration slot when none was
placed), then write the active height, type and slope into the slot at
`tilePointer`. -/
def update (r : RandTick) (ref : Option GroundLayer) (p : Nat) (s0 : GroundLayer) : GroundLayer :=
  let s1 := s0.updateSlope r ref
  let s2 := s1.updateType r ref
  let dec := s2.updateDecorations r ref p
  let s3 := if dec.2 then dec.1
            else { dec.1 with decorations := dec.1.decorations.set p Decoration.none }
  { s3 with height := s3.height.set p s3.activeHeight
            type := s3.type.set p s3.activeType
            slope := s3.slope.set p s3.activeSlope }

/-- `setReferenceLayer(ref)`: unconditionally overwrite the stored
reference cell (`this.ref = ref`); the source performs no check of any
kind.  Modelled on the reference cell itself: `prev` is the cell's old
content, the result its new content. -/
def setReferenceLayer (_prev : Option GroundLayer) (rr : GroundLayer) : Option GroundLayer :=
  some rr

/-- One floor-collision report handed to `o.floorCollision(x1, y1, x2, y2,
globalSpeed, event, left, right)`; `left` and `right` are the numeric
open-neighbor flags (`Number(...)`, so `0` or `1`). -/
structure FloorHit where
  x1 : Int
  y1 : Int
  x2 : Int
  y2 : Int
  speed : Int
  leftFlag : Int
  rightFlag : Int
deriving DecidableEq, Repr

/-- Ring index of screen tile column `x`: `negMod(x + tilePointer, width)`. -/
def tileIndex (s : GroundLayer) (tilePointer x : Int) : Nat :=
  (negMod (x + tilePointer) (s.width : Int)).toNat

/-- Body of the `objectCollision` loop for one tile column `x`: skip empty
tiles, compute the numeric open-neighbor flags, and produce the floor
segment for the tile's slope (flat segments carry the neighbor flags,
sloped segments carry `0, 0`). -/
def tileHit (s : GroundLayer) (globalSpeed tilePointer tileOffset screenH x : Int) :
    Option FloorHit :=
  let h := screenH.tdiv 16
  let i := s.tileIndex tilePointer x
  if s.type.getD i TileType.none = TileType.none then Option.none
  else
    let left : Int := if s.type.getD ((negMod ((i : Int) - 1) (s.width : Int)).toNat)
        TileType.none = TileType.none then 1 else 0
    let right : Int := if s.type.getD ((i + 1) % s.width) TileType.none = TileType.none
      then 1 else 0
    let dx := x * 16 - tileOffset - BASE_SHIFT_X * 16 + s.shift
    let dy := (h - s.height.getD i 0) * 16
    match s.slope.getD i SlopeDirection.none with
    | SlopeDirection.none => some ⟨dx, dy, dx + 16, dy, globalSpeed, left, right⟩
    | SlopeDirection.up => some ⟨dx, dy + 16, dx + 16, dy, globalSpeed, 0, 0⟩
    | SlopeDirection.down => some ⟨dx, dy - 16, dx + 16, dy, globalSpeed, 0, 0⟩

/-- `objectCollision(o, globalSpeed, tilePointer, tileOffset, event)`: scan
the five tile columns `px - 2 .. px + 2` around the actor's tile column
`px` and collect, in order, the floor-collision reports handed to the
actor.  `ox` is the actor's pixel x-position and `screenH` the screen
pixel height. -/
def objectCollision (s : GroundLayer) (ox globalSpeed tilePointer tileOffset screenH : Int) :
    List FloorHit :=
  let px := (ox - s.shift).tdiv 16 + BASE_SHIFT_X
  (List.range 5).filterMap
    (fun (k : Nat) => s.tileHit globalSpeed tilePointer tileOffset screenH (px - 2 + (k : Int)))

end GroundLayer

/-- One step of a driver-supplied update sequence: the tick's random
draws, the referenced layer's state at the time of the call (`Option.none`
when no reference is set), and the ring slot to write. -/
structure Step where
  r : RandTick
  ref : Option GroundLayer
  p : Nat

/-- Run a sequence of `update` calls, oldest first. -/
def runSteps (l : List Step) (s : GroundLayer) : GroundLayer :=
  l.foldl (fun s st => GroundLayer.update st.r st.ref st.p s) s

/-- Run `update` once per list entry with consecutively increasing ring
pointers starting at `p0`, as the world driver does when it advances the
ring across a whole revolution. -/
def runRing : List (RandTick × Option GroundLayer) → Nat → GroundLayer → GroundLayer
  | [], _, s => s
  | (r, rf) :: rest, p, s => runRing rest (p + 1) (GroundLayer.update r rf p s)

/-- Slope-type coherence of a layer state: a non-flat active slope forces
the surface active type, and every written slot with a non-flat slope has
a surface type (the two arrays run in lock step). -/
def SlopeTypeOk (s : GroundLayer) : Prop :=
  (s.activeSlope ≠ SlopeDirection.none → s.activeType = TileType.surface) ∧
  s.slope.length = s.type.length ∧
  (∀ (j : Nat) (d : SlopeDirection), s.slope[j]? = some d → d ≠ SlopeDirection.none →
    s.type[j]? = some TileType.surface)

/-- Inductive invariant of a foreground layer: the active height stays in
`[1, 5]`, and while a slope run is active the tile type is surface, at
least one tick of the run remains, the slope wait dominates the remaining
duration (so the random branch cannot re-fire mid-run), the projected
height at the end of the run is still in `[1, 5]`, and the type-hold gate
is closed (either the hold timer is at least 2 or the previous tick's
slope was not flat, so no type transition can fire under the slope). -/
def FgInv (s : GroundLayer) : Prop :=
  s.layerType = GroundLayerType.foreground ∧
  1 ≤ s.activeHeight ∧ s.activeHeight ≤ 5 ∧
  (s.activeSlope ≠ SlopeDirection.none →
    s.activeType = TileType.surface ∧
    1 ≤ s.slopeDuration ∧ s.slopeDuration ≤ s.slopeWait ∧
    1 ≤ s.activeHeight - s.activeSlope.toInt * (s.slopeDuration - 1) ∧
    s.activeHeight - s.activeSlope.toInt * (s.slopeDuration - 1) ≤ 5 ∧
    (2 ≤ s.typeWait ∨ s.lastSlope ≠ SlopeDirection.none))

/-- Mid-tick variant of `FgInv`, holding between the slope and type
sub-generators of one update: identical except that the type-hold gate is
one tick stronger (the hold timer is at least 3), because the type
sub-generator's own decrement of the hold timer is still pending. -/
def FgMid (s : GroundLayer) : Prop :=
  s.layerType = GroundLayerType.foreground ∧
  1 ≤ s.activeHeight ∧ s.activeHeight ≤ 5 ∧
  (s.activeSlope ≠ SlopeDirection.none →
    s.activeType = TileType.surface ∧
    1 ≤ s.slopeDuration ∧ s.slopeDuration ≤ s.slopeWait ∧
    1 ≤ s.activeHeight - s.activeSlope.toInt * (s.slopeDuration - 1) ∧
    s.activeHeight - s.activeSlope.toInt * (s.slopeDuration - 1) ≤ 5 ∧
    (3 ≤ s.typeWait ∨ s.lastSlope ≠ SlopeDirection.none))

/-! Concrete fixtures used by counterexamples and witnesses. -/

/-- A fixed tick of random draws: minimum slope duration, minimum slope
wait, ascending direction, bridge roll zero, height draws resolving to
the upper bound, type-wait draws resolving to the lower bound, decoration
wait eight.  All draws are in their real ranges. -/
def rTickHi : RandTick :=
  { slopeDurDraw := 1, slopeWaitDraw := 2, slopeUpDraw := true, bridgeDraw := 0,
    heightDraw := fun _ b => b, typeWaitDraw := fun a _ => a, decoDraw := 8 }

/-- Like `rTickHi` but with height draws resolving to the lower bound. -/
def rTickLo : RandTick :=
  { slopeDurDraw := 1, slopeWaitDraw := 2, slopeUpDraw := true, bridgeDraw := 0,
    heightDraw := fun a _ => a, typeWaitDraw := fun a _ => a, decoDraw := 8 }

/-- A foreground-layer state with the given active height and slope, used
as the referenced layer's state seen by a background update. -/
def fgSnap (h : Int) (sl : SlopeDirection) : GroundLayer :=
  { height := [], slope := [], type := [], decorations := [],
    activeHeight := h, activeType := TileType.surface, typeWait := 3,
    slopeWait := 5, slopeDuration := 0, activeSlope := sl,
    lastSlope := SlopeDirection.none, gapTimer := 0, decorationWait := 5,
    layerType := GroundLayerType.foreground, width := 0, shift := 0 }

/-- A freshly constructed background layer of width 4 (constructor draws:
slope wait 12, decoration wait 16). -/
def bgStart : GroundLayer := GroundLayer.new 4 GroundLayerType.background 0 12 16

/-- Five driver ticks for `bgStart`: the foreground reference sits at
height 1, then 3, then ascends to 4, rests at 4, and ascends to 5, while
the ring pointer walks 0, 1, 2, 3, 0.  On the fifth tick the coupled-slope
branch forces an ascending slope and, in the same update, the type-hold
timer expires with a settled last slope, so the type transitions away from
surface while the forced slope is active. -/
def bgTrace1 : List Step :=
  [ ⟨rTickHi, some (fgSnap 1 SlopeDirection.none), 0⟩,
    ⟨rTickHi, some (fgSnap 3 SlopeDirection.none), 1⟩,
    ⟨rTickHi, some (fgSnap 4 SlopeDirection.up), 2⟩,
    ⟨rTickHi, some (fgSnap 4 SlopeDirection.none), 3⟩,
    ⟨rTickHi, some (fgSnap 5 SlopeDirection.up), 0⟩ ]

/-- Four driver ticks for `bgStart`: the background becomes surface at
height 4 (the bottom of the shifted range over a reference at height 2),
holds for two ticks, transitions into a gap, and then the foreground
reference ascends to height 3, lifting the shifted range to `[5, 7]`
while the background's height stays frozen at 4 inside the gap. -/
def bgTrace2 : List Step :=
  [ ⟨rTickLo, some (fgSnap 2 SlopeDirection.none), 0⟩,
    ⟨rTickLo, some (fgSnap 2 SlopeDirection.none), 1⟩,
    ⟨rTickLo, some (fgSnap 2 SlopeDirection.none), 2⟩,
    ⟨rTickLo, some (fgSnap 3 SlopeDirection.up), 3⟩ ]

/-- A background layer on surface at height 4, hold timer 1, whose
referenced foreground layer sits two tiles below with no active slope. -/
def bgDiffTwo : GroundLayer :=
  { height := [4, 4, 4],
    slope := [SlopeDirection.none, SlopeDirection.none, SlopeDirection.none],
    type := [TileType.surface, TileType.surface, TileType.surface],
    decorations := [Decoration.none, Decoration.none, Decoration.none],
    activeHeight := 4, activeType := TileType.surface, typeWait := 1,
    slopeWait := 5, slopeDuration := 0, activeSlope := SlopeDirection.none,
    lastSlope := SlopeDirection.none, gapTimer := 0, decorationWait := 9,
    layerType := GroundLayerType.background, width := 3, shift := 0 }

/-- A foreground layer in a gap (empty type) whose decoration wait is
about to run out. -/
def fgGapWait : GroundLayer :=
  { height := [2, 2, 2],
    slope := [SlopeDirection.none, SlopeDirection.none, SlopeDirection.none],
    type := [TileType.none, TileType.none, TileType.none],
    decorations := [Decoration.none, Decoration.none, Decoration.none],
    activeHeight := 2, activeType := TileType.none, typeWait := 3,
    slopeWait := 5, slopeDuration := 0, activeSlope := SlopeDirection.none,
    lastSlope := SlopeDirection.none, gapTimer := 1, decorationWait := 1,
    layerType := GroundLayerType.foreground, width := 3, shift := 0 }

/-- A background layer on flat surface whose decoration wait is about to
run out. -/
def bgFlatSurface : GroundLayer :=
  { height := [5, 5, 5],
    slope := [SlopeDirection.none, SlopeDirection.none, SlopeDirection.none],
    type := [TileType.surface, TileType.surface, TileType.surface],
    decorations := [Decoration.none, Decoration.none, Decoration.none],
    activeHeight := 5, activeType := TileType.surface, typeWait := 5,
    slopeWait := 9, slopeDuration := 0, activeSlope := SlopeDirection.none,
    lastSlope := SlopeDirection.none, gapTimer := 0, decorationWait := 1,
    layerType := GroundLayerType.background, width := 3, shift := 0 }

/-- A foreground layer in a gap, as the referenced layer's state seen by a
background decoration check. -/
def fgGapSnap : GroundLayer :=
  { height := [2, 2, 2],
    slope := [SlopeDirection.none, SlopeDirection.none, SlopeDirection.none],
    type := [TileType.none, TileType.none, TileType.none],
    decorations := [Decoration.none, Decoration.none, Decoration.none],
    activeHeight := 2, activeType := TileType.none, typeWait := 3,
    slopeWait := 5, slopeDuration := 0, activeSlope := SlopeDirection.none,
    lastSlope := SlopeDirection.none, gapTimer := 1, decorationWait := 7,
    layerType := GroundLayerType.foreground, width := 3, shift := 0 }

/-- A ring state of width 5 whose slot 0 is an ascending surface tile with
an empty right neighbor (slot 1); all other slots are empty. -/
def ringSlopeEdge : GroundLayer :=
  { height := [3, 3, 3, 3, 3],
    slope := [SlopeDirection.up, SlopeDirection.none, SlopeDirection.none,
              SlopeDirection.none, SlopeDirection.none],
    type := [TileType.surface, TileType.none, TileType.none, TileType.none, TileType.none],
    decorations := [Decoration.none, Decoration.none, Decoration.none,
                    Decoration.none, Decoration.none],
    activeHeight := 3, activeType := TileType.surface, typeWait := 3,
    slopeWait := 5, slopeDuration := 0, activeSlope := SlopeDirection.none,
    lastSlope := SlopeDirection.none, gapTimer := 0, decorationWait := 7,
    layerType := GroundLayerType.foreground, width := 5, shift := 0 }

namespace GroundLayer

/-! Preservation lemmas: which fields each sub-generator leaves unchanged. -/

lemma slopeRandomPart_base (r : RandTick) (mm : Int × Int) (s : GroundLayer) :
    (s.slopeRandomPart r mm).height = s.height ∧
    (s.slopeRandomPart r mm).type = s.type ∧
    (s.slopeRandomPart r mm).slope = s.slope ∧
    (s.slopeRandomPart r mm).decorations = s.decorations ∧
    (s.slopeRandomPart r mm).layerType = s.layerType ∧
    (s.slopeRandomPart r mm).width = s.width ∧
    (s.slopeRandomPart r mm).shift = s.shift ∧
    (s.slopeRandomPart r mm).activeType = s.activeType ∧
    (s.slopeRandomPart r mm).decorationWait = s.decorationWait ∧
    (s.slopeRandomPart r mm).gapTimer = s.gapTimer ∧
    (s.slopeRandomPart r mm).lastSlope = s.lastSlope := by
  unfold slopeRandomPart
  split_ifs <;> simp

lemma updateSlope_base (r : RandTick) (ref : Option GroundLayer) (s : GroundLayer) :
    (s.updateSlope r ref).height = s.height ∧
    (s.updateSlope r ref).type = s.type ∧
    (s.updateSlope r ref).slope = s.slope ∧
    (s.updateSlope r ref).decorations = s.decorations ∧
    (s.updateSlope r ref).layerType = s.layerType ∧
    (s.updateSlope r ref).width = s.width ∧
    (s.updateSlope r ref).shift = s.shift ∧
    (s.updateSlope r ref).activeType = s.activeType ∧
    (s.updateSlope r ref).decorationWait = s.decorationWait ∧
    (s.updateSlope r ref).gapTimer = s.gapTimer := by
  unfold updateSlope
  cases ref <;> dsimp only <;> split_ifs <;> simp [slopeRandomPart_base]

lemma updateType_base (r : RandTick) (ref : Option GroundLayer) (s : GroundLayer) :
    (s.updateType r ref).height = s.height ∧
    (s.updateType r ref).type = s.type ∧
    (s.updateType r ref).slope = s.slope ∧
    (s.updateType r ref).decorations = s.decorations ∧
    (s.updateType r ref).layerType = s.layerType ∧
    (s.updateType r ref).width = s.width ∧
    (s.updateType r ref).shift = s.shift ∧
    (s.updateType r ref).activeSlope = s.activeSlope ∧
    (s.updateType r ref).lastSlope = s.lastSlope ∧
    (s.updateType r ref).slopeWait = s.slopeWait ∧
    (s.updateType r ref).slopeDuration = s.slopeDuration ∧
    (s.updateType r ref).decorationWait = s.decorationWait := by
  unfold updateType
  dsimp only
  split_ifs <;> simp

lemma updateDecorations_base (r : RandTick) (ref : Option GroundLayer) (p : Nat)
    (s : GroundLayer) :
    ((s.updateDecorations r ref p).1).height = s.height ∧
    ((s.updateDecorations r ref p).1).type = s.type ∧
    ((s.updateDecorations r ref p).1).slope = s.slope ∧
    ((s.updateDecorations r ref p).1).layerType = s.layerType ∧
    ((s.updateDecorations r ref p).1).width = s.width ∧
    ((s.updateDecorations r ref p).1).shift = s.shift ∧
    ((s.updateDecorations r ref p).1).activeHeight = s.activeHeight ∧
    ((s.updateDecorations r ref p).1).activeType = s.activeType ∧
    ((s.updateDecorations r ref p).1).activeSlope = s.activeSlope ∧
    ((s.updateDecorations r ref p).1).lastSlope = s.lastSlope ∧
    ((s.updateDecorations r ref p).1).typeWait = s.typeWait ∧
    ((s.updateDecorations r ref p).1).slopeWait = s.slopeWait ∧
    ((s.updateDecorations r ref p).1).slopeDuration = s.slopeDuration ∧
    ((s.updateDecorations r ref p).1).gapTimer = s.gapTimer := by
  unfold updateDecorations
  dsimp only
  split_ifs <;> simp

/-- Scalar generator state after `update` agrees with the slope-then-type
pipeline (the decoration pass and the ring write do not touch it). -/
lemma update_scalars (r : RandTick) (ref : Option GroundLayer) (p : Nat) (s : GroundLayer) :
    (s.update r ref p).activeHeight = ((s.updateSlope r ref).updateType r ref).activeHeight ∧
    (s.update r ref p).activeType = ((s.updateSlope r ref).updateType r ref).activeType ∧
    (s.update r ref p).activeSlope = ((s.updateSlope r ref).updateType r ref).activeSlope ∧
    (s.update r ref p).lastSlope = ((s.updateSlope r ref).updateType r ref).lastSlope ∧
    (s.update r ref p).typeWait = ((s.updateSlope r ref).updateType r ref).typeWait ∧
    (s.update r ref p).slopeWait = ((s.updateSlope r ref).updateType r ref).slopeWait ∧
    (s.update r ref p).slopeDuration = ((s.updateSlope r ref).updateType r ref).slopeDuration ∧
    (s.update r ref p).gapTimer = ((s.updateSlope r ref).updateType r ref).gapTimer ∧
    (s.update r ref p).layerType = s.layerType ∧
    (s.update r ref p).width = s.width ∧
    (s.update r ref p).shift = s.shift := by
  unfold update
  dsimp only
  split_ifs <;> simp [updateDecorations_base, updateType_base, updateSlope_base]

/-- Effect of the coupled-slope branch of `updateSlope`: under its guard
(background layer, reference present, surface type, height difference
within 2 when the reference ascends else within 1) the update is exactly
the forced ascending slope, independent of every random draw. -/
lemma coupled_branch_eq (r : RandTick) (rr s : GroundLayer)
    (hbg : s.layerType = GroundLayerType.background)
    (hsurf : s.activeType = TileType.surface)
    (hdif : (rr.activeSlope = SlopeDirection.up ∧ s.activeHeight - rr.activeHeight ≤ 2) ∨
      s.activeHeight - rr.activeHeight ≤ 1) :
    s.updateSlope r (some rr) =
      { s with lastSlope := s.activeSlope, slopeDuration := 0,
               activeSlope := SlopeDirection.up, slopeWait := 2,
               activeHeight := s.activeHeight + 1, typeWait := s.typeWait + 1 } := by
  unfold updateSlope
  dsimp only
  rw [if_pos ⟨hsurf, hbg, hdif⟩]
  simp [SlopeDirection.toInt]

/-- Rejected decoration pass of a foreground layer with no reference set:
`this.ref?.activeType !== TileType.None` evaluates to `true` on an unset
reference, so the check fails and only the wait countdown is consumed. -/
lemma updateDecorations_fg_none (r : RandTick) (p : Nat) (s : GroundLayer)
    (hfg : s.layerType = GroundLayerType.foreground) :
    s.updateDecorations r Option.none p =
      ({ s with decorationWait := s.decorationWait - 1 }, false) := by
  unfold updateDecorations
  dsimp only
  split_ifs with h1 h2
  · rfl
  · rfl
  · exact absurd (Or.inr (Or.inr ⟨hfg, rfl⟩)) h2

/-- C4: when the coupled-slope rule fires during an update of a background
layer with a reference (surface type, height difference within 2 while the
reference ascends, else within 1), that update forces an ascending slope
whose run ends with this tile (`slopeDuration` is left at 0, so the very
next tick's decrement clears it: an effective duration of one tile),
resets the slope wait timer to 2, raises the active height by exactly one
tile unit, increments the type-hold timer, and skips the random-slope
branch: the right-hand side mentions no random draw, so the result is the
same for every `RandTick`, and the slope wait is overwritten rather than
decremented. -/
theorem coupled_rule_forces_unit_ascending_step (r : RandTick) (rr s : GroundLayer)
    (hbg : s.layerType = GroundLayerType.background)
    (hsurf : s.activeType = TileType.surface)
    (hdif : (rr.activeSlope = SlopeDirection.up ∧ s.activeHeight - rr.activeHeight ≤ 2) ∨
      s.activeHeight - rr.activeHeight ≤ 1) :
    s.updateSlope r (some rr) =
      { s with lastSlope := s.activeSlope, slopeDuration := 0,
               activeSlope := SlopeDirection.up, slopeWait := 2,
               activeHeight := s.activeHeight + 1, typeWait := s.typeWait + 1 } :=
  coupled_branch_eq r rr s hbg hsurf hdif

/-- Witness for C4 at a concrete input: a background layer on surface at
height 5 whose reference sits at the same height. -/
theorem coupled_rule_forces_unit_ascending_step_witness :
    bgFlatSurface.layerType = GroundLayerType.background ∧
    bgFlatSurface.activeType = TileType.surface ∧
    bgFlatSurface.activeHeight - (fgSnap 5 SlopeDirection.none).activeHeight ≤ 1 ∧
    bgFlatSurface.updateSlope rTickHi (some (fgSnap 5 SlopeDirection.none)) =
      { bgFlatSurface with lastSlope := bgFlatSurface.activeSlope, slopeDuration := 0,
                           activeSlope := SlopeDirection.up, slopeWait := 2,
                           activeHeight := bgFlatSurface.activeHeight + 1,
                           typeWait := bgFlatSurface.typeWait + 1 } :=
  ⟨rfl, rfl, by decide,
    coupled_rule_forces_unit_ascending_step rTickHi (fgSnap 5 SlopeDirection.none)
      bgFlatSurface rfl rfl (Or.inr (by decide))⟩

/-- C3 counterexample: a background layer on surface at height 4 whose
reference sits at height 2 with no active slope.  The height difference is
2, which exceeds 1 while the reference is not ascending, so the claim
demands an ascending slope within this very update; the code instead
leaves the slope flat (the coupled branch only fires when the difference
is small, not when it is large), both in the active state and in the
written slot. -/
theorem coupled_rule_ignores_large_gap :
    bgDiffTwo.activeHeight - (fgSnap 2 SlopeDirection.none).activeHeight = 2 ∧
    (fgSnap 2 SlopeDirection.none).activeSlope ≠ SlopeDirection.up ∧
    (bgDiffTwo.update rTickHi (some (fgSnap 2 SlopeDirection.none)) 0).activeSlope =
      SlopeDirection.none ∧
    (bgDiffTwo.update rTickHi (some (fgSnap 2 SlopeDirection.none)) 0).slope.get? 0 =
      some SlopeDirection.none := by
  decide

/-- C3 (amended): the coupled rule fires in the opposite direction of the
claim: whenever a background layer with a reference is on surface and its
height exceeds the reference's height by at most 1 (or at most 2 while the
reference is currently ascending), the layer begins an ascending slope in
that very update call. -/
theorem coupled_rule_fires_when_close (r : RandTick) (rr s : GroundLayer) (p : Nat)
    (hbg : s.layerType = GroundLayerType.background)
    (hsurf : s.activeType = TileType.surface)
    (hdif : (rr.activeSlope = SlopeDirection.up ∧ s.activeHeight - rr.activeHeight ≤ 2) ∨
      s.activeHeight - rr.activeHeight ≤ 1) :
    (s.update r (some rr) p).activeSlope = SlopeDirection.up := by
  have h1 := (update_scalars r (some rr) p s).2.2.1
  have h2 := (updateType_base r (some rr) (s.updateSlope r (some rr))).2.2.2.2.2.2.2.1
  rw [h1, h2, coupled_branch_eq r rr s hbg hsurf hdif]

/-- Witness for the amended C3 at a concrete input: a background layer on
surface at height 5 whose reference sits at the same height. -/
theorem coupled_rule_fires_when_close_witness :
    bgFlatSurface.layerType = GroundLayerType.background ∧
    bgFlatSurface.activeType = TileType.surface ∧
    bgFlatSurface.activeHeight - (fgSnap 5 SlopeDirection.none).activeHeight ≤ 1 ∧
    (bgFlatSurface.update rTickHi (some (fgSnap 5 SlopeDirection.none)) 1).activeSlope =
      SlopeDirection.up :=
  ⟨rfl, rfl, by decide,
    coupled_rule_fires_when_close rTickHi (fgSnap 5 SlopeDirection.none) bgFlatSurface 1
      rfl rfl (Or.inr (by decide))⟩

/-- C5 counterexample: a foreground layer in a gap with decoration wait 1.
The countdown runs out on this sub-step and placement is rejected (type is
not surface), yet the wait is left at its decremented value 0 and is not
reset into `[DECORATION_WAIT_MIN, DECORATION_WAIT_MAX] = [8, 16]` as the
claim demands. -/
theorem decoration_wait_left_consumed_on_rejection :
    (fgGapWait.updateDecorations rTickHi Option.none 0).2 = false ∧
    (fgGapWait.updateDecorations rTickHi Option.none 0).1.decorationWait = 0 ∧
    ¬ DECORATION_WAIT_MIN ≤ (fgGapWait.updateDecorations rTickHi Option.none 0).1.decorationWait := by
  decide

/-- C5 (amended): on a decoration sub-step whose wait countdown has run
out but whose placement is rejected, the countdown is not re-armed: the
state changes only by the decrement (leaving the countdown at a value
at most 0, so the placement check re-runs on every subsequent sub-step),
no decoration is placed, and only a successful placement resets the
countdown to a fresh draw in `[8, 16]`. -/
theorem decoration_wait_on_rejection (r : RandTick) (ref : Option GroundLayer) (p : Nat)
    (s : GroundLayer) (hdw : s.decorationWait - 1 ≤ 0)
    (hrej : s.activeType ≠ TileType.surface ∨ s.activeSlope ≠ SlopeDirection.none ∨
      (s.layerType = GroundLayerType.foreground ∧ refTypeNotNone ref = true)) :
    s.updateDecorations r ref p = ({ s with decorationWait := s.decorationWait - 1 }, false) := by
  unfold updateDecorations
  dsimp only
  rw [if_neg (by omega), if_pos hrej]

/-- Witness for the amended C5 at a concrete input: the gap-layer fixture
with decoration wait 1. -/
theorem decoration_wait_on_rejection_witness :
    fgGapWait.decorationWait - 1 ≤ 0 ∧
    fgGapWait.activeType ≠ TileType.surface ∧
    fgGapWait.updateDecorations rTickHi Option.none 0 =
      ({ fgGapWait with decorationWait := fgGapWait.decorationWait - 1 }, false) :=
  ⟨by decide, by decide,
    decoration_wait_on_rejection rTickHi Option.none 0 fgGapWait (by decide)
      (Or.inl (by decide))⟩

/-- C6 counterexample: a background layer on flat surface with its wait
expired, updated while its referenced foreground layer is in a gap (empty
type).  The claim says no decoration may be placed over a reference gap;
the code places a palm tree in the written slot. -/
theorem background_decorates_over_foreground_gap :
    fgGapSnap.activeType = TileType.none ∧
    (bgFlatSurface.update rTickHi (some fgGapSnap) 0).decorations.get? 0 =
      some Decoration.palmtree := by
  decide

/-- C6 (amended): the reference check of the decoration sub-generator
applies only to foreground layers and is inverted relative to the claim:
a placement happens exactly when the wait countdown has run out, the tile
is surface and flat, and the layer is not a foreground layer whose
reference reads as other-than-empty — so a foreground layer places a
decoration only when the coupled background tile is a gap, and a
background layer ignores its reference entirely. -/
theorem decoration_placement_characterization (r : RandTick) (ref : Option GroundLayer)
    (p : Nat) (s : GroundLayer) :
    (s.updateDecorations r ref p).2 = true ↔
      (s.decorationWait - 1 ≤ 0 ∧ s.activeType = TileType.surface ∧
        s.activeSlope = SlopeDirection.none ∧
        ¬ (s.layerType = GroundLayerType.foreground ∧ refTypeNotNone ref = true)) := by
  unfold updateDecorations
  dsimp only
  split_ifs with h1 h2
  · exact iff_of_false (by simp) (by rintro ⟨a, -, -, -⟩; omega)
  · refine iff_of_false (by simp) ?_
    rintro ⟨-, hb, hc, hd⟩
    rcases h2 with h | h | h
    exacts [h hb, h hc, hd h]
  · refine iff_of_true rfl ⟨by omega, ?_, ?_, ?_⟩ <;> push_neg at h2
    exacts [h2.1, h2.2.1, fun hand => h2.2.2 hand.1 hand.2]

/-- C9 counterexample: the constructor performs no width validation —
width 0 (a non-positive width) is accepted and yields a layer with empty
ring buffers rather than being rejected — and `setReferenceLayer` is a
bare assignment that still succeeds when applied after a tile has already
been generated (here: re-assigning over an already-set reference cell
after an `update` call). -/
theorem no_fail_fast_on_width_or_reference :
    (GroundLayer.new 0 GroundLayerType.foreground 0 2 8).width = 0 ∧
    (GroundLayer.new 0 GroundLayerType.foreground 0 2 8).height = [] ∧
    GroundLayer.setReferenceLayer (some fgGapSnap)
        ((GroundLayer.new 3 GroundLayerType.foreground 0 2 8).update rTickHi Option.none 0) =
      some ((GroundLayer.new 3 GroundLayerType.foreground 0 2 8).update rTickHi Option.none 0) :=
  ⟨rfl, rfl, rfl⟩

/-- C9 (amended): there are no fail-fast precondition checks: the
constructor is total in the width — every width, including the
non-positive width 0, produces a layer whose buffers simply have that
length (a negative width would only fail incidentally inside the
JavaScript `Array` constructor, not through any check in this class) —
and `setReferenceLayer` unconditionally overwrites the reference cell no
matter what was generated or stored before. -/
theorem construction_and_reference_setting_unchecked :
    (∀ (w : Nat) (t : GroundLayerType) (sh sw dw : Int),
      (GroundLayer.new w t sh sw dw).width = w ∧
      (GroundLayer.new w t sh sw dw).height.length = w) ∧
    (∀ (prev : Option GroundLayer) (rr : GroundLayer),
      GroundLayer.setReferenceLayer prev rr = some rr) :=
  ⟨fun w t sh sw dw => ⟨rfl, by simp [GroundLayer.new]⟩, fun prev rr => rfl⟩

/-- C10: a foreground layer with no reference set never places a
decoration: every `update` call writes `Decoration.None` into the slot at
the tile pointer (and touches no other slot of the decoration array),
because the placement check requires the unset reference's type to read
as the empty type, which never holds. -/
theorem foreground_without_ref_writes_no_decoration (r : RandTick) (p : Nat) (s : GroundLayer)
    (hfg : s.layerType = GroundLayerType.foreground) :
    (s.update r Option.none p).decorations = s.decorations.set p Decoration.none := by
  have hl2 : ((s.updateSlope r Option.none).updateType r Option.none).layerType =
      GroundLayerType.foreground := by
    rw [(updateType_base r Option.none (s.updateSlope r Option.none)).2.2.2.2.1,
      (updateSlope_base r Option.none s).2.2.2.2.1]
    exact hfg
  unfold update
  dsimp only
  rw [updateDecorations_fg_none r p _ hl2]
  simp [updateType_base, updateSlope_base]

/-- Witness for C10 at a concrete input: a freshly constructed foreground
layer of width 3. -/
theorem foreground_without_ref_writes_no_decoration_witness :
    (GroundLayer.new 3 GroundLayerType.foreground 0 2 8).layerType =
      GroundLayerType.foreground ∧
    ((GroundLayer.new 3 GroundLayerType.foreground 0 2 8).update rTickHi Option.none 1).decorations =
      (GroundLayer.new 3 GroundLayerType.foreground 0 2 8).decorations.set 1 Decoration.none :=
  ⟨rfl, foreground_without_ref_writes_no_decoration rTickHi 1 _ rfl⟩


/-- A successful decoration pass wrote a palm tree into slot `p`. -/
lemma updateDecorations_true_decor (r : RandTick) (ref : Option GroundLayer) (p : Nat)
    (s : GroundLayer) (h : (s.updateDecorations r ref p).2 = true) :
    ((s.updateDecorations r ref p).1).decorations = s.decorations.set p Decoration.palmtree := by
  unfold updateDecorations at h ⊢
  dsimp only at h ⊢
  split_ifs at h ⊢ <;> simp_all

/-- A rejected decoration pass left the decoration array untouched. -/
lemma updateDecorations_false_decor (r : RandTick) (ref : Option GroundLayer) (p : Nat)
    (s : GroundLayer) (h : ¬ (s.updateDecorations r ref p).2 = true) :
    ((s.updateDecorations r ref p).1).decorations = s.decorations := by
  unfold updateDecorations at h ⊢
  dsimp only at h ⊢
  split_ifs at h ⊢ <;> simp_all

/-- One `update` call writes the active record into slot `p` of each array
and nothing else: every array equals the previous array with only slot `p`
overwritten. -/
lemma update_writes (r : RandTick) (ref : Option GroundLayer) (p : Nat) (s : GroundLayer) :
    (s.update r ref p).height = s.height.set p ((s.update r ref p).activeHeight) ∧
    (s.update r ref p).type = s.type.set p ((s.update r ref p).activeType) ∧
    (s.update r ref p).slope = s.slope.set p ((s.update r ref p).activeSlope) ∧
    ∃ d, (s.update r ref p).decorations = s.decorations.set p d := by
  unfold update
  dsimp only
  split_ifs with hplace
  · refine ⟨?_, ?_, ?_, Decoration.palmtree, ?_⟩ <;>
      simp [updateDecorations_base, updateType_base, updateSlope_base,
        updateDecorations_true_decor _ _ _ _ hplace]
  · refine ⟨?_, ?_, ?_, Decoration.none, ?_⟩ <;>
      simp [updateDecorations_base, updateType_base, updateSlope_base,
        updateDecorations_false_decor _ _ _ _ hplace]

/-- Slots other than the written one are untouched by `update`. -/
lemma update_getElem_ne (r : RandTick) (ref : Option GroundLayer) (p : Nat) (s : GroundLayer)
    (j : Nat) (hj : j ≠ p) :
    (s.update r ref p).height[j]? = s.height[j]? ∧
    (s.update r ref p).type[j]? = s.type[j]? ∧
    (s.update r ref p).slope[j]? = s.slope[j]? ∧
    (s.update r ref p).decorations[j]? = s.decorations[j]? := by
  obtain ⟨h1, h2, h3, d, h4⟩ := update_writes r ref p s
  rw [h1, h2, h3, h4]
  refine ⟨?_, ?_, ?_, ?_⟩ <;> exact List.getElem?_set_ne (fun he => hj he.symm)

/-- Array lengths and the width are invariant under `update`. -/
lemma update_lengths (r : RandTick) (ref : Option GroundLayer) (p : Nat) (s : GroundLayer) :
    (s.update r ref p).height.length = s.height.length ∧
    (s.update r ref p).type.length = s.type.length ∧
    (s.update r ref p).slope.length = s.slope.length ∧
    (s.update r ref p).width = s.width := by
  obtain ⟨h1, h2, h3, d, h4⟩ := update_writes r ref p s
  exact ⟨by rw [h1, List.length_set], by rw [h2, List.length_set],
    by rw [h3, List.length_set], (update_scalars r ref p s).2.2.2.2.2.2.2.2.2.1⟩

/-- Slots below the running pointer are untouched by a pointer-increasing
run of updates. -/
lemma runRing_preserve (l : List (RandTick × Option GroundLayer)) (p0 j : Nat)
    (s : GroundLayer) (hj : j < p0) :
    (runRing l p0 s).height[j]? = s.height[j]? ∧
    (runRing l p0 s).type[j]? = s.type[j]? ∧
    (runRing l p0 s).slope[j]? = s.slope[j]? := by
  induction l generalizing p0 s with
  | nil => exact ⟨rfl, rfl, rfl⟩
  | cons a t ih =>
      obtain ⟨r, rf⟩ := a
      obtain ⟨ia, ib, ic⟩ := ih (p0 + 1) (GroundLayer.update r rf p0 s) (by omega)
      obtain ⟨ua, ub, uc, -⟩ := update_getElem_ne r rf p0 s j (by omega)
      exact ⟨ia.trans ua, ib.trans ub, ic.trans uc⟩

/-- A pointer-increasing run preserves the array lengths and the width. -/
lemma runRing_lengths (l : List (RandTick × Option GroundLayer)) (p0 : Nat)
    (s : GroundLayer) :
    (runRing l p0 s).height.length = s.height.length ∧
    (runRing l p0 s).type.length = s.type.length ∧
    (runRing l p0 s).slope.length = s.slope.length ∧
    (runRing l p0 s).width = s.width := by
  induction l generalizing p0 s with
  | nil => exact ⟨rfl, rfl, rfl, rfl⟩
  | cons a t ih =>
      obtain ⟨r, rf⟩ := a
      obtain ⟨ia, ib, ic, id1⟩ := ih (p0 + 1) (GroundLayer.update r rf p0 s)
      obtain ⟨ua, ub, uc, ud⟩ := update_lengths r rf p0 s
      exact ⟨ia.trans ua, ib.trans ub, ic.trans uc, id1.trans ud⟩

/-- Slot `j` of a pointer-increasing run of updates equals the active
record right after the update whose pointer was `j`; the later updates of
the run do not touch it. -/
lemma runRing_slot (l : List (RandTick × Option GroundLayer)) (p0 : Nat) (s : GroundLayer)
    (j : Nat) (hp : p0 ≤ j) (hjl : j < p0 + l.length)
    (hh : j < s.height.length) (ht : j < s.type.length) (hs : j < s.slope.length) :
    (runRing l p0 s).height[j]? = some ((runRing (l.take (j + 1 - p0)) p0 s).activeHeight) ∧
    (runRing l p0 s).type[j]? = some ((runRing (l.take (j + 1 - p0)) p0 s).activeType) ∧
    (runRing l p0 s).slope[j]? = some ((runRing (l.take (j + 1 - p0)) p0 s).activeSlope) := by
  induction l generalizing p0 s with
  | nil => simp only [List.length_nil] at hjl; omega
  | cons a t ih =>
      obtain ⟨r, rf⟩ := a
      by_cases hje : j = p0
      · subst hje
        obtain ⟨pa, pb, pc⟩ := runRing_preserve t (j + 1) j (GroundLayer.update r rf j s)
          (by omega)
        obtain ⟨wa, wb, wc, -⟩ := update_writes r rf j s
        have ht1 : j + 1 - j = 1 := by omega
        rw [ht1]
        refine ⟨pa.trans ?_, pb.trans ?_, pc.trans ?_⟩
        · rw [wa]; exact List.getElem?_set_self hh
        · rw [wb]; exact List.getElem?_set_self ht
        · rw [wc]; exact List.getElem?_set_self hs
      · obtain ⟨ul1, ul2, ul3, -⟩ := update_lengths r rf p0 s
        have harith : j + 1 - p0 = (j - p0) + 1 := by omega
        have IH := ih (p0 + 1) (GroundLayer.update r rf p0 s) (by omega)
          (by simp only [List.length_cons] at hjl; omega)
          (by omega) (by omega) (by omega)
        rw [show j + 1 - (p0 + 1) = j - p0 from by omega] at IH
        rw [harith, List.take_succ_cons]
        exact IH

/-- C7: each `update(tilePointer)` call runs the slope sub-generator, then
the type sub-generator, then the decoration sub-generator, and writes
exactly the slot at `tilePointer` in all four arrays as one tile record —
the written height/type/slope equal the active values produced by the
slope-then-type pipeline, the decoration slot is overwritten with some
decoration, and every other slot of all four arrays is unchanged.  Hence a
run of `width` update calls with consecutively increasing pointers
starting at 0 writes every slot exactly once: afterwards each slot `j`
holds exactly the active record as it stood right after the update whose
pointer was `j`. -/
theorem advance_writes_single_tile_record :
    (∀ (r : RandTick) (ref : Option GroundLayer) (p : Nat) (s : GroundLayer),
      (s.update r ref p).activeHeight = ((s.updateSlope r ref).updateType r ref).activeHeight ∧
      (s.update r ref p).activeType = ((s.updateSlope r ref).updateType r ref).activeType ∧
      (s.update r ref p).activeSlope = ((s.updateSlope r ref).updateType r ref).activeSlope ∧
      (s.update r ref p).height = s.height.set p ((s.update r ref p).activeHeight) ∧
      (s.update r ref p).type = s.type.set p ((s.update r ref p).activeType) ∧
      (s.update r ref p).slope = s.slope.set p ((s.update r ref p).activeSlope) ∧
      (∃ d, (s.update r ref p).decorations = s.decorations.set p d) ∧
      ∀ j, j ≠ p →
        (s.update r ref p).height[j]? = s.height[j]? ∧
        (s.update r ref p).type[j]? = s.type[j]? ∧
        (s.update r ref p).slope[j]? = s.slope[j]? ∧
        (s.update r ref p).decorations[j]? = s.decorations[j]?) ∧
    ∀ (l : List (RandTick × Option GroundLayer)) (s : GroundLayer) (j : Nat),
      l.length = s.width → s.height.length = s.width → s.type.length = s.width →
      s.slope.length = s.width → j < s.width →
      (runRing l 0 s).height[j]? = some ((runRing (l.take (j + 1)) 0 s).activeHeight) ∧
      (runRing l 0 s).type[j]? = some ((runRing (l.take (j + 1)) 0 s).activeType) ∧
      (runRing l 0 s).slope[j]? = some ((runRing (l.take (j + 1)) 0 s).activeSlope) := by
  constructor
  · intro r ref p s
    obtain ⟨w1, w2, w3, w4⟩ := update_writes r ref p s
    obtain ⟨u1, u2, u3, -⟩ := update_scalars r ref p s
    exact ⟨u1, u2, u3, w1, w2, w3, w4, fun j hj => update_getElem_ne r ref p s j hj⟩
  · intro l s j hl hh ht hs hj
    have := runRing_slot l 0 s j (Nat.zero_le j) (by omega) (by omega) (by omega) (by omega)
    rw [show j + 1 - 0 = j + 1 from by omega] at this
    exact this

/-- Witness for C7 at concrete inputs: a width-4 foreground layer updated
at pointer 1 leaves slot 3 unchanged, and a full two-step ring revolution
over a width-2 layer leaves slot 1 holding the record of its own update. -/
theorem advance_writes_single_tile_record_witness :
    (3 : Nat) ≠ 1 ∧
    ((GroundLayer.new 4 GroundLayerType.foreground 0 2 8).update rTickHi Option.none 1).height[3]? =
      (GroundLayer.new 4 GroundLayerType.foreground 0 2 8).height[3]? ∧
    (1 : Nat) < (GroundLayer.new 2 GroundLayerType.foreground 0 2 8).width ∧
    (runRing [(rTickHi, Option.none), (rTickHi, Option.none)] 0
        (GroundLayer.new 2 GroundLayerType.foreground 0 2 8)).height[1]? =
      some ((runRing ([(rTickHi, Option.none), (rTickHi, Option.none)].take 2) 0
        (GroundLayer.new 2 GroundLayerType.foreground 0 2 8)).activeHeight) :=
  ⟨by decide,
    ((advance_writes_single_tile_record.1 rTickHi Option.none 1
      (GroundLayer.new 4 GroundLayerType.foreground 0 2 8)).2.2.2.2.2.2.2 3 (by decide)).1,
    by decide,
    (advance_writes_single_tile_record.2 [(rTickHi, Option.none), (rTickHi, Option.none)]
      (GroundLayer.new 2 GroundLayerType.foreground 0 2 8) 1 (by decide) (by decide)
      (by decide) (by decide) (by decide)).1⟩



/-- Length of a `filterMap` counts the inputs on which the function
produces a value. -/
lemma length_filterMap_eq {α β : Type} (f : α → Option β) (l : List α) :
    (l.filterMap f).length = (l.filter (fun a => (f a).isSome)).length := by
  induction l with
  | nil => rfl
  | cons a t ih => cases h : f a <;> simp [List.filterMap_cons, List.filter_cons, h, ih]

/-- `tileHit` produces a report exactly on non-empty tiles. -/
lemma tileHit_isSome (s : GroundLayer) (gs tp toff sh x : Int) :
    (s.tileHit gs tp toff sh x).isSome =
      decide (s.type.getD (s.tileIndex tp x) TileType.none ≠ TileType.none) := by
  unfold tileHit
  dsimp only
  by_cases h : s.type.getD (s.tileIndex tp x) TileType.none = TileType.none
  · rw [if_pos h, decide_eq_false (not_not_intro h)]
    rfl
  · rw [if_neg h, decide_eq_true h]
    split <;> rfl

/-- C8 (amended): the collision probe reports, in window order, exactly
one floor segment per non-empty tile among the five columns around the
actor's tile column (empty tiles report nothing), every segment spans one
tile horizontally and carries the global speed; a flat tile yields the
horizontal segment at the tile's height together with the left/right
open-neighbor flags (1 exactly when the respective ring neighbor is
empty), while ascending and descending tiles yield the rising respectively
falling segment with both flags hard-coded to 0 regardless of their
neighbors — not with the true neighbor flags, as the claim stated. -/
theorem objectCollision_reports (s : GroundLayer) (ox gs tp toff sh : Int) :
    s.objectCollision ox gs tp toff sh =
      (List.range 5).filterMap (fun (k : Nat) =>
        s.tileHit gs tp toff sh ((ox - s.shift).tdiv 16 + BASE_SHIFT_X - 2 + (k : Int))) ∧
    (s.objectCollision ox gs tp toff sh).length =
      ((List.range 5).filter (fun (k : Nat) =>
        decide (s.type.getD
          (s.tileIndex tp ((ox - s.shift).tdiv 16 + BASE_SHIFT_X - 2 + (k : Int)))
          TileType.none ≠ TileType.none))).length ∧
    ∀ x : Int,
      (s.type.getD (s.tileIndex tp x) TileType.none = TileType.none →
        s.tileHit gs tp toff sh x = Option.none) ∧
      (s.type.getD (s.tileIndex tp x) TileType.none ≠ TileType.none →
        (s.slope.getD (s.tileIndex tp x) SlopeDirection.none = SlopeDirection.none →
          s.tileHit gs tp toff sh x = some
            { x1 := x * 16 - toff - BASE_SHIFT_X * 16 + s.shift
              y1 := (sh.tdiv 16 - s.height.getD (s.tileIndex tp x) 0) * 16
              x2 := x * 16 - toff - BASE_SHIFT_X * 16 + s.shift + 16
              y2 := (sh.tdiv 16 - s.height.getD (s.tileIndex tp x) 0) * 16
              speed := gs
              leftFlag := if s.type.getD
                  ((negMod ((s.tileIndex tp x : Int) - 1) (s.width : Int)).toNat)
                  TileType.none = TileType.none then 1 else 0
              rightFlag := if s.type.getD ((s.tileIndex tp x + 1) % s.width)
                  TileType.none = TileType.none then 1 else 0 }) ∧
        (s.slope.getD (s.tileIndex tp x) SlopeDirection.none = SlopeDirection.up →
          s.tileHit gs tp toff sh x = some
            { x1 := x * 16 - toff - BASE_SHIFT_X * 16 + s.shift
              y1 := (sh.tdiv 16 - s.height.getD (s.tileIndex tp x) 0) * 16 + 16
              x2 := x * 16 - toff - BASE_SHIFT_X * 16 + s.shift + 16
              y2 := (sh.tdiv 16 - s.height.getD (s.tileIndex tp x) 0) * 16
              speed := gs
              leftFlag := 0
              rightFlag := 0 }) ∧
        (s.slope.getD (s.tileIndex tp x) SlopeDirection.none = SlopeDirection.down →
          s.tileHit gs tp toff sh x = some
            { x1 := x * 16 - toff - BASE_SHIFT_X * 16 + s.shift
              y1 := (sh.tdiv 16 - s.height.getD (s.tileIndex tp x) 0) * 16 - 16
              x2 := x * 16 - toff - BASE_SHIFT_X * 16 + s.shift + 16
              y2 := (sh.tdiv 16 - s.height.getD (s.tileIndex tp x) 0) * 16
              speed := gs
              leftFlag := 0
              rightFlag := 0 })) := by
  refine ⟨rfl, ?_, ?_⟩
  · unfold objectCollision
    dsimp only
    rw [length_filterMap_eq,
      show (fun (k : Nat) => (s.tileHit gs tp toff sh
            ((ox - s.shift).tdiv 16 + BASE_SHIFT_X - 2 + (k : Int))).isSome) =
          (fun (k : Nat) => decide (s.type.getD
            (s.tileIndex tp ((ox - s.shift).tdiv 16 + BASE_SHIFT_X - 2 + (k : Int)))
            TileType.none ≠ TileType.none))
        from funext fun k => tileHit_isSome s gs tp toff sh _]
  · intro x
    constructor
    · intro hx
      unfold tileHit
      dsimp only
      rw [if_pos hx]
    · intro hx
      refine ⟨?_, ?_, ?_⟩ <;> intro hsl <;> unfold tileHit <;> dsimp only <;>
        rw [if_neg hx, hsl]

/-- C8 counterexample: the ring of `ringSlopeEdge` has an ascending
surface tile in the actor's window whose right ring-neighbor is an empty
tile, yet its reported segment carries a cleared (0) right flag — the
claim demands that every reported segment carry the open-neighbor flags,
true exactly when the neighboring tile is empty. -/
theorem slope_segment_flags_cleared :
    ringSlopeEdge.objectCollision 0 1 3 0 144 =
      [{ x1 := 0, y1 := 112, x2 := 16, y2 := 96, speed := 1, leftFlag := 0, rightFlag := 0 }] ∧
    ringSlopeEdge.slope.getD (ringSlopeEdge.tileIndex 3 2) SlopeDirection.none =
      SlopeDirection.up ∧
    ringSlopeEdge.type.getD ((ringSlopeEdge.tileIndex 3 2 + 1) % ringSlopeEdge.width)
      TileType.none = TileType.none := by
  decide

/-- Witness for the amended C8 at a concrete input: the ascending tile of
`ringSlopeEdge` in the actor's window produces exactly the rising segment
with cleared flags. -/
theorem objectCollision_reports_witness :
    ringSlopeEdge.type.getD (ringSlopeEdge.tileIndex 3 2) TileType.none ≠ TileType.none ∧
    ringSlopeEdge.slope.getD (ringSlopeEdge.tileIndex 3 2) SlopeDirection.none =
      SlopeDirection.up ∧
    ringSlopeEdge.tileHit 1 3 0 144 2 =
      some { x1 := 0, y1 := 112, x2 := 16, y2 := 96, speed := 1, leftFlag := 0, rightFlag := 0 } :=
  ⟨by decide, by decide,
    (((objectCollision_reports ringSlopeEdge 0 1 3 0 144).2.2 2).2 (by decide)).2.1 (by decide)⟩



/-- Mid-tick slope-type coherence right after the random slope branch: a
non-flat slope forces surface, and the type-transition gate is closed
(hold timer at least 2 after the pending decrement, or an unsettled last
slope). -/
lemma slopeRandomPart_mid (r : RandTick) (mm : Int × Int) (u : GroundLayer)
    (hact2 : u.activeSlope ≠ SlopeDirection.none →
      u.activeType = TileType.surface ∧ u.lastSlope ≠ SlopeDirection.none) :
    (u.slopeRandomPart r mm).activeSlope ≠ SlopeDirection.none →
      (u.slopeRandomPart r mm).activeType = TileType.surface ∧
      (2 ≤ (u.slopeRandomPart r mm).typeWait ∨
        (u.slopeRandomPart r mm).lastSlope ≠ SlopeDirection.none) := by
  unfold slopeRandomPart
  by_cases h1 : u.activeType = TileType.surface ∧ 2 ≤ u.typeWait
  · by_cases h2 : u.slopeWait - 1 ≤ 0
    · rw [if_pos h1, if_pos h2]
      dsimp only
      intro _
      refine ⟨h1.1, Or.inl ?_⟩
      have := h1.2
      omega
    · rw [if_pos h1, if_neg h2]
      intro hs
      obtain ⟨ha, hb⟩ := hact2 hs
      exact ⟨ha, Or.inr hb⟩
  · rw [if_neg h1]
    intro hs
    obtain ⟨ha, hb⟩ := hact2 hs
    exact ⟨ha, Or.inr hb⟩

/-- Mid-tick slope-type coherence after the whole slope sub-generator, for
any update in which the coupled branch cannot fire (foreground layer, or
no reference passed). -/
lemma updateSlope_mid (r : RandTick) (ref : Option GroundLayer) (s : GroundLayer)
    (hact : s.activeSlope ≠ SlopeDirection.none → s.activeType = TileType.surface)
    (hside : s.layerType = GroundLayerType.foreground ∨ ref = Option.none) :
    (s.updateSlope r ref).activeSlope ≠ SlopeDirection.none →
      (s.updateSlope r ref).activeType = TileType.surface ∧
      (2 ≤ (s.updateSlope r ref).typeWait ∨
        (s.updateSlope r ref).lastSlope ≠ SlopeDirection.none) := by
  unfold updateSlope
  dsimp only
  cases ref with
  | none =>
      refine slopeRandomPart_mid r _ _ ?_
      intro hs
      by_cases hD : s.slopeDuration - 1 ≤ 0
      · simp [hD] at hs
      · simp only [if_neg hD] at hs
        exact ⟨hact hs, hs⟩
  | some rr =>
      dsimp only
      rcases hside with hfg | hnone
      · have hneg : ¬ (s.activeType = TileType.surface ∧
            s.layerType = GroundLayerType.background ∧
            ((rr.activeSlope = SlopeDirection.up ∧ s.activeHeight - rr.activeHeight ≤ 2) ∨
              s.activeHeight - rr.activeHeight ≤ 1)) := by
          rintro ⟨-, hb, -⟩
          rw [hfg] at hb
          exact absurd hb (by decide)
        rw [if_neg hneg]
        refine slopeRandomPart_mid r _ _ ?_
        intro hs
        by_cases hD : s.slopeDuration - 1 ≤ 0
        · simp [hD] at hs
        · simp only [if_neg hD] at hs
          exact ⟨hact hs, hs⟩
      · exact absurd hnone (by simp)

/-- The type sub-generator cannot transition away from surface while a
slope is active: the transition is gated on an expired hold timer and a
settled last slope, and the mid-tick coherence rules both out. -/
lemma updateType_preserves_surface (r : RandTick) (ref : Option GroundLayer) (t : GroundLayer)
    (hmid : t.activeSlope ≠ SlopeDirection.none →
      t.activeType = TileType.surface ∧
      (2 ≤ t.typeWait ∨ t.lastSlope ≠ SlopeDirection.none)) :
    (t.updateType r ref).activeSlope ≠ SlopeDirection.none →
      (t.updateType r ref).activeType = TileType.surface := by
  intro hs
  have hs' : t.activeSlope ≠ SlopeDirection.none := by
    rw [← (updateType_base r ref t).2.2.2.2.2.2.2.1]
    exact hs
  obtain ⟨hsurf, hgate⟩ := hmid hs'
  have hgap : ¬ t.activeType = TileType.none := by rw [hsurf]; decide
  have hc : ¬ (t.typeWait - 1 ≤ 0 ∧ t.lastSlope = SlopeDirection.none) := by
    rintro ⟨ha, hb⟩
    rcases hgate with hg | hg
    · omega
    · exact hg hb
  unfold updateType
  dsimp only
  rw [if_neg hgap]
  rw [if_neg hc]
  exact hsurf

/-- The slope-type coherence `SlopeTypeOk` is preserved by any update in
which the coupled branch cannot fire. -/
lemma slopeTypeOk_step (r : RandTick) (ref : Option GroundLayer) (p : Nat) (s : GroundLayer)
    (hside : s.layerType = GroundLayerType.foreground ∨ ref = Option.none)
    (h : SlopeTypeOk s) : SlopeTypeOk (s.update r ref p) := by
  obtain ⟨hact, hlen, harr⟩ := h
  have hmid := updateSlope_mid r ref s hact hside
  have hsurf2 := updateType_preserves_surface r ref (s.updateSlope r ref) hmid
  have hact' : (s.update r ref p).activeSlope ≠ SlopeDirection.none →
      (s.update r ref p).activeType = TileType.surface := by
    intro hs
    rw [(update_scalars r ref p s).2.1]
    refine hsurf2 ?_
    rw [← (update_scalars r ref p s).2.2.1]
    exact hs
  refine ⟨hact', ?_, ?_⟩
  · rw [(update_lengths r ref p s).2.2.1, (update_lengths r ref p s).2.1, hlen]
  · intro j d hj hd
    by_cases hjp : j = p
    · subst hjp
      obtain ⟨-, w2, w3, -⟩ := update_writes r ref j s
      rw [w3] at hj
      by_cases hlt : j < s.slope.length
      · rw [List.getElem?_set_self hlt] at hj
        have hds : (s.update r ref j).activeSlope = d := by
          exact Option.some.inj hj
        rw [w2, List.getElem?_set_self (by omega)]
        rw [hact' (hds ▸ hd)]
      · rw [List.getElem?_eq_none (by rw [List.length_set]; omega)] at hj
        exact absurd hj (by simp)
    · obtain ⟨-, h2, h3, -⟩ := update_getElem_ne r ref p s j hjp
      rw [h3] at hj
      rw [h2]
      exact harr j d hj hd

/-- A freshly constructed layer satisfies the slope-type coherence. -/
lemma slopeTypeOk_new (w : Nat) (ltype : GroundLayerType) (shift sw dw : Int) :
    SlopeTypeOk (GroundLayer.new w ltype shift sw dw) := by
  refine ⟨fun hs => absurd rfl hs, by simp [new], ?_⟩
  intro j d hj hd
  have : d = SlopeDirection.none := by
    unfold new at hj
    dsimp only at hj
    rw [List.getElem?_replicate] at hj
    split at hj
    · exact (Option.some.inj hj).symm
    · exact absurd hj (by simp)
  exact absurd this hd

/-- The slope-type coherence is preserved along any run of updates in
which the coupled branch never fires. -/
lemma slopeTypeOk_run (l : List Step) (s : GroundLayer)
    (hside : ∀ st ∈ l, s.layerType = GroundLayerType.foreground ∨ st.ref = Option.none)
    (h : SlopeTypeOk s) : SlopeTypeOk (runSteps l s) := by
  induction l generalizing s with
  | nil => exact h
  | cons st t ih =>
      have hst := hside st (List.mem_cons_self _ _)
      have hside' : ∀ st' ∈ t,
          (s.update st.r st.ref st.p).layerType = GroundLayerType.foreground ∨
            st'.ref = Option.none := by
        intro st' hm
        rcases hside st' (List.mem_cons_of_mem _ hm) with hf | hn
        · exact Or.inl (by
            rw [(update_scalars st.r st.ref st.p s).2.2.2.2.2.2.2.2.1]
            exact hf)
        · exact Or.inr hn
      exact ih (s.update st.r st.ref st.p) hside' (slopeTypeOk_step st.r st.ref st.p s hst h)

set_option maxRecDepth 10000 in
/-- C1 counterexample: a five-tick run of a freshly constructed background
layer, against a foreground reference that rests, ascends, rests, and
ascends again (all its per-tick height changes are one tile or less and
its slope runs are one tick separated by two, as the real foreground
produces).  On the fifth update the coupled-slope branch forces an
ascending slope and, in the same update, the hold timer expires with a
settled last slope, so the type transitions to empty while the slope is
active: the written tile record has a non-flat slope on a non-surface
tile, and the active state likewise. -/
theorem slope_on_empty_tile_reachable :
    RandTick.Valid rTickHi ∧
    (runSteps bgTrace1 bgStart).activeSlope = SlopeDirection.up ∧
    (runSteps bgTrace1 bgStart).activeType = TileType.none ∧
    (runSteps bgTrace1 bgStart).slope[0]? = some SlopeDirection.up ∧
    (runSteps bgTrace1 bgStart).type[0]? = some TileType.none :=
  ⟨⟨by decide, by decide, by decide, by decide, by decide, by decide,
      fun a b h => ⟨h, le_refl b⟩, fun a b h => ⟨le_refl a, h⟩, by decide, by decide⟩,
    by decide⟩

/-- C1 (amended): for every layer and every sequence of update calls from
the constructed initial state in which the coupled-slope branch cannot
fire — every foreground layer, and any layer updated without a reference —
the slope-type coherence holds after every update: a non-flat active slope
implies a surface active type, and every written slot with a non-flat
slope holds a surface type.  (Arbitrary prefixes are covered because the
sequence is arbitrary.)  For a background layer with a reference the claim
fails, see the counterexample. -/
theorem slope_implies_surface_without_coupling (w : Nat) (ltype : GroundLayerType)
    (shift sw dw : Int) (l : List Step)
    (hside : ∀ st ∈ l, ltype = GroundLayerType.foreground ∨ st.ref = Option.none) :
    ((runSteps l (GroundLayer.new w ltype shift sw dw)).activeSlope ≠ SlopeDirection.none →
      (runSteps l (GroundLayer.new w ltype shift sw dw)).activeType = TileType.surface) ∧
    ∀ (j : Nat) (d : SlopeDirection),
      (runSteps l (GroundLayer.new w ltype shift sw dw)).slope[j]? = some d →
      d ≠ SlopeDirection.none →
      (runSteps l (GroundLayer.new w ltype shift sw dw)).type[j]? = some TileType.surface := by
  have hrun := slopeTypeOk_run l (GroundLayer.new w ltype shift sw dw)
    (fun st hm => hside st hm) (slopeTypeOk_new w ltype shift sw dw)
  exact ⟨hrun.1, hrun.2.2⟩

/-- Witness for the amended C1 at concrete inputs: a one-step run of a
foreground layer. -/
theorem slope_implies_surface_without_coupling_witness :
    (∀ st ∈ [Step.mk rTickHi (some (fgSnap 2 SlopeDirection.none)) 0],
      GroundLayerType.foreground = GroundLayerType.foreground ∨ st.ref = Option.none) ∧
    ((runSteps [Step.mk rTickHi (some (fgSnap 2 SlopeDirection.none)) 0]
        (GroundLayer.new 4 GroundLayerType.foreground 0 12 16)).activeSlope ≠
        SlopeDirection.none →
      (runSteps [Step.mk rTickHi (some (fgSnap 2 SlopeDirection.none)) 0]
        (GroundLayer.new 4 GroundLayerType.foreground 0 12 16)).activeType =
        TileType.surface) :=
  ⟨fun st _ => Or.inl rfl,
    (slope_implies_surface_without_coupling 4 GroundLayerType.foreground 0 12 16
      [Step.mk rTickHi (some (fgSnap 2 SlopeDirection.none)) 0]
      (fun st _ => Or.inl rfl)).1⟩



/-- A foreground layer's height range is always `[1, 5]`, whatever the
reference. -/
lemma getHeightRange_fg (s : GroundLayer) (ref : Option GroundLayer)
    (hfg : s.layerType = GroundLayerType.foreground) :
    s.getHeightRange ref = (1, 5) := by
  unfold getHeightRange
  rw [hfg]
  rfl

/-- For a foreground layer the slope sub-generator is exactly the random
part applied to the range `[1, 5]` after the duration decrement: the
coupled branch never fires. -/
lemma updateSlope_fg_eq (r : RandTick) (ref : Option GroundLayer) (s : GroundLayer)
    (hfg : s.layerType = GroundLayerType.foreground) :
    s.updateSlope r ref =
      GroundLayer.slopeRandomPart r (1, 5)
        { s with lastSlope := s.activeSlope
                 slopeDuration := s.slopeDuration - 1
                 activeSlope := if s.slopeDuration - 1 ≤ 0 then SlopeDirection.none
                                else s.activeSlope } := by
  unfold updateSlope
  dsimp only
  cases ref with
  | none =>
      dsimp only
      have hr := getHeightRange_fg
        { s with
          lastSlope := s.activeSlope,
          slopeDuration := s.slopeDuration - 1,
          activeSlope :=
            (if s.slopeDuration - 1 ≤ 0 then SlopeDirection.none else s.activeSlope) }
        Option.none hfg
      rw [hr]
  | some rr =>
      dsimp only
      have hneg : ¬ (s.activeType = TileType.surface ∧
          s.layerType = GroundLayerType.background ∧
          ((rr.activeSlope = SlopeDirection.up ∧ s.activeHeight - rr.activeHeight ≤ 2) ∨
            s.activeHeight - rr.activeHeight ≤ 1)) := by
        rintro ⟨-, hb, -⟩
        rw [hfg] at hb
        exact absurd hb (by decide)
      rw [if_neg hneg]
      have hr := getHeightRange_fg
        { s with
          lastSlope := s.activeSlope,
          slopeDuration := s.slopeDuration - 1,
          activeSlope :=
            (if s.slopeDuration - 1 ≤ 0 then SlopeDirection.none else s.activeSlope) }
        (some rr) hfg
      rw [hr]

/-- The slope sub-generator of a foreground layer turns the end-of-tick
invariant into the mid-tick invariant (all random draws in range). -/
lemma fgInv_updateSlope (r : RandTick) (ref : Option GroundLayer) (s : GroundLayer)
    (hv : r.Valid) (h : FgInv s) : FgMid (s.updateSlope r ref) := by
  obtain ⟨hfg, hh1, hh2, hsl⟩ := h
  obtain ⟨hv1, hv2, hv3, hv4, -, -, -, -, -, -⟩ := hv
  rw [SLOPE_DURATION_MIN] at hv1
  rw [SLOPE_DURATION_MAX] at hv2
  rw [SLOPE_WAIT_MIN] at hv3
  rw [updateSlope_fg_eq r ref s hfg]
  unfold slopeRandomPart
  dsimp only
  by_cases hD : s.slopeDuration - 1 ≤ 0
  · simp only [if_pos hD]
    by_cases hg : s.activeType = TileType.surface ∧ 2 ≤ s.typeWait
    · obtain ⟨hg1, hg2⟩ := hg
      by_cases hw : s.slopeWait - 1 ≤ 0
      · rw [if_pos ⟨hg1, hg2⟩, if_pos hw]
        refine ⟨hfg, ?_, ?_, fun _ => ⟨hg1, ?_, ?_, ?_, ?_,
            Or.inl (by (try dsimp only); omega)⟩⟩ <;>
          split_ifs <;>
            (try simp_all only [SlopeDirection.toInt, SlopeDirection.neg, clamp, ne_eq]) <;>
            omega
      · rw [if_pos ⟨hg1, hg2⟩, if_neg hw]
        refine ⟨hfg, ?_, ?_, fun habs => absurd rfl habs⟩ <;>
          simp only [SlopeDirection.toInt] <;> omega
    · rw [if_neg hg]
      refine ⟨hfg, ?_, ?_, fun habs => absurd rfl habs⟩ <;>
        simp only [SlopeDirection.toInt] <;> omega
  · simp only [if_neg hD]
    by_cases hA : s.activeSlope = SlopeDirection.none
    · rw [hA]
      by_cases hg : s.activeType = TileType.surface ∧ 2 ≤ s.typeWait
      · obtain ⟨hg1, hg2⟩ := hg
        by_cases hw : s.slopeWait - 1 ≤ 0
        · rw [if_pos ⟨hg1, hg2⟩, if_pos hw]
          refine ⟨hfg, ?_, ?_, fun _ => ⟨hg1, ?_, ?_, ?_, ?_,
              Or.inl (by (try dsimp only); omega)⟩⟩ <;>
            split_ifs <;>
              (try simp_all only [SlopeDirection.toInt, SlopeDirection.neg, clamp, ne_eq]) <;>
              omega
        · rw [if_pos ⟨hg1, hg2⟩, if_neg hw]
          refine ⟨hfg, ?_, ?_, fun habs => absurd rfl habs⟩ <;>
            simp only [SlopeDirection.toInt] <;> omega
      · rw [if_neg hg]
        refine ⟨hfg, ?_, ?_, fun habs => absurd rfl habs⟩ <;>
          simp only [SlopeDirection.toInt] <;> omega
    · obtain ⟨hS1, hS2, hS3, hS4, hS5, -⟩ := hsl hA
      have hwpos : ¬ s.slopeWait - 1 ≤ 0 := by omega
      by_cases hg : s.activeType = TileType.surface ∧ 2 ≤ s.typeWait
      · rw [if_pos hg, if_neg hwpos]
        refine ⟨hfg, ?_, ?_, fun _ => ⟨hS1, by (try dsimp only); omega,
            by (try dsimp only); omega, ?_, ?_, Or.inr hA⟩⟩ <;>
          cases hcs : s.activeSlope <;>
            (try simp_all only [SlopeDirection.toInt, ne_eq, not_true_eq_false]) <;>
            omega
      · rw [if_neg hg]
        refine ⟨hfg, ?_, ?_, fun _ => ⟨hS1, by (try dsimp only); omega,
            by (try dsimp only); omega, ?_, ?_, Or.inr hA⟩⟩ <;>
          cases hcs : s.activeSlope <;>
            (try simp_all only [SlopeDirection.toInt, ne_eq, not_true_eq_false]) <;>
            omega

/-- The type sub-generator of a foreground layer turns the mid-tick
invariant back into the end-of-tick invariant (all random draws in
range). -/
lemma fgMid_updateType (r : RandTick) (ref : Option GroundLayer) (t : GroundLayer)
    (hv : r.Valid) (h : FgMid t) : FgInv (t.updateType r ref) := by
  obtain ⟨hfg, hh1, hh2, hsl⟩ := h
  obtain ⟨-, -, -, -, -, -, hvh, -, -, -⟩ := hv
  unfold updateType
  rw [getHeightRange_fg t ref hfg]
  dsimp only
  by_cases hgap : t.activeType = TileType.none
  · have hsln : t.activeSlope = SlopeDirection.none := by
      by_contra hne
      have := (hsl hne).1
      rw [hgap] at this
      exact absurd this (by decide)
    rw [if_pos hgap]
    dsimp only
    by_cases htr : t.typeWait - 1 ≤ 0 ∧ t.lastSlope = SlopeDirection.none
    · rw [if_pos htr, if_pos (show ¬ t.activeType = TileType.surface from by
        rw [hgap]; decide)]
      rw [if_neg (show ¬ t.layerType = GroundLayerType.background from by
        rw [hfg]; decide)]
      exact ⟨hfg, hh1, hh2, fun habs => absurd hsln habs⟩
    · rw [if_neg htr]
      exact ⟨hfg, hh1, hh2, fun habs => absurd hsln habs⟩
  · rw [if_neg hgap]
    by_cases htr : t.typeWait - 1 ≤ 0 ∧ t.lastSlope = SlopeDirection.none
    · have hsln : t.activeSlope = SlopeDirection.none := by
        by_contra hne
        obtain ⟨-, -, -, -, -, hg⟩ := hsl hne
        rcases hg with hg | hg
        · omega
        · exact hg htr.2
      rw [if_pos htr]
      by_cases hsur : ¬ t.activeType = TileType.surface
      · rw [if_pos hsur]
        rw [if_neg (show ¬ t.layerType = GroundLayerType.background from by
          rw [hfg]; decide)]
        exact ⟨hfg, hh1, hh2, fun habs => absurd hsln habs⟩
      · rw [if_neg hsur]
        by_cases hbridge : r.bridgeDraw < BRIDGE_PROB t.layerType
        · rw [if_pos hbridge]
          rw [if_neg (show ¬ (t.layerType = GroundLayerType.foreground ∧
              TileType.bridge = TileType.none) from fun hand => absurd hand.2 (by decide))]
          exact ⟨hfg, hh1, hh2, fun habs => absurd hsln habs⟩
        · rw [if_neg hbridge]
          rw [if_pos ⟨hfg, rfl⟩]
          have hlo : max 1 (t.activeHeight - GAP_JUMP_MAX) ≤
              min 5 (t.activeHeight + GAP_JUMP_MAX) := by
            simp only [GAP_JUMP_MAX]
            omega
          obtain ⟨hda, hdb⟩ := hvh _ _ hlo
          refine ⟨hfg, ?_, ?_, fun habs => absurd hsln habs⟩ <;>
            ((try dsimp only); omega)
    · rw [if_neg htr]
      refine ⟨hfg, hh1, hh2, fun hne => ?_⟩
      obtain ⟨ha, hb, hc, hd, he, hg⟩ := hsl hne
      refine ⟨ha, hb, hc, hd, he, ?_⟩
      rcases hg with hg | hg
      · exact Or.inl (by (try dsimp only); omega)
      · exact Or.inr hg

/-- `FgInv` only depends on the scalar generator fields. -/
lemma fgInv_of_fields {a b : GroundLayer}
    (h1 : a.layerType = b.layerType) (h2 : a.activeHeight = b.activeHeight)
    (h3 : a.activeSlope = b.activeSlope) (h4 : a.activeType = b.activeType)
    (h5 : a.slopeDuration = b.slopeDuration) (h6 : a.slopeWait = b.slopeWait)
    (h7 : a.typeWait = b.typeWait) (h8 : a.lastSlope = b.lastSlope)
    (h : FgInv b) : FgInv a := by
  unfold FgInv at *
  rw [h1, h2, h3, h4, h5, h6, h7, h8]
  exact h

/-- One full update preserves the foreground invariant. -/
lemma fgInv_update (r : RandTick) (ref : Option GroundLayer) (p : Nat) (s : GroundLayer)
    (hv : r.Valid) (h : FgInv s) : FgInv (s.update r ref p) := by
  obtain ⟨u1, u2, u3, u4, u5, u6, u7, -, u9, -, -⟩ := update_scalars r ref p s
  refine fgInv_of_fields ?_ u1 u3 u2 u7 u6 u5 u4
    (fgMid_updateType r ref (s.updateSlope r ref) hv (fgInv_updateSlope r ref s hv h))
  rw [u9, (updateType_base r ref (s.updateSlope r ref)).2.2.2.2.1,
    (updateSlope_base r ref s).2.2.2.2.1]

/-- A freshly constructed foreground layer satisfies the invariant. -/
lemma fgInv_new (w : Nat) (shift sw dw : Int) :
    FgInv (GroundLayer.new w GroundLayerType.foreground shift sw dw) := by
  refine ⟨rfl, by norm_num [new, INITIAL_HEIGHT], by norm_num [new, INITIAL_HEIGHT],
    fun habs => absurd rfl habs⟩

/-- The foreground invariant holds along every run of updates with
in-range draws. -/
lemma fgInv_run (l : List Step) (s : GroundLayer)
    (hval : ∀ st ∈ l, RandTick.Valid st.r) (h : FgInv s) : FgInv (runSteps l s) := by
  induction l generalizing s with
  | nil => exact h
  | cons st t ih =>
      exact ih (s.update st.r st.ref st.p)
        (fun st' hm => hval st' (List.mem_cons_of_mem _ hm))
        (fgInv_update st.r st.ref st.p s (hval st (List.mem_cons_self _ _)) h)


/-- The draws of `rTickHi` are all in their real ranges. -/
lemma rTickHi_valid : RandTick.Valid rTickHi :=
  ⟨by decide, by decide, by decide, by decide, by decide, by decide,
    fun a b h => ⟨h, le_refl b⟩, fun a b h => ⟨le_refl a, h⟩, by decide, by decide⟩

/-- The draws of `rTickLo` are all in their real ranges. -/
lemma rTickLo_valid : RandTick.Valid rTickLo :=
  ⟨by decide, by decide, by decide, by decide, by decide, by decide,
    fun a b h => ⟨le_refl a, h⟩, fun a b h => ⟨le_refl a, h⟩, by decide, by decide⟩

/-- C2 counterexample: a four-tick run of a freshly constructed background
layer with all draws in their real ranges.  The background becomes surface
at height 4 — the bottom of the range shifted by a reference at height 2 —
then falls into a gap, and on the fourth tick the reference ascends to
height 3: the shifted range is now `[2 + 3, 4 + 3] = [5, 7]`, but the
background layer's active height after its update is still 4, below the
range the claim asserts. -/
theorem background_height_below_shifted_range :
    RandTick.Valid rTickLo ∧
    (runSteps bgTrace2 bgStart).layerType = GroundLayerType.background ∧
    (runSteps bgTrace2 bgStart).activeHeight = 4 ∧
    ¬ (MIN_HEIGHT GroundLayerType.background + (fgSnap 3 SlopeDirection.up).activeHeight ≤
        (runSteps bgTrace2 bgStart).activeHeight) :=
  ⟨rTickLo_valid, by decide, by decide, by decide⟩

/-- C2 (amended): for every foreground layer and every sequence of update
calls from the constructed initial state whose random draws are in their
real ranges, the active height after every update lies in the foreground
range `[MIN_HEIGHT, MAX_HEIGHT] = [1, 5]`.  (Arbitrary prefixes are
covered because the sequence is arbitrary.)  For a background layer with a
reference the claim fails: its height can fall outside the shifted range,
see the counterexample. -/
theorem foreground_height_in_range (w : Nat) (shift sw dw : Int) (l : List Step)
    (hval : ∀ st ∈ l, RandTick.Valid st.r) :
    MIN_HEIGHT GroundLayerType.foreground ≤
      (runSteps l (GroundLayer.new w GroundLayerType.foreground shift sw dw)).activeHeight ∧
    (runSteps l (GroundLayer.new w GroundLayerType.foreground shift sw dw)).activeHeight ≤
      MAX_HEIGHT GroundLayerType.foreground := by
  have h := fgInv_run l (GroundLayer.new w GroundLayerType.foreground shift sw dw) hval
    (fgInv_new w shift sw dw)
  exact ⟨h.2.1, h.2.2.1⟩

/-- Witness for the amended C2 at concrete inputs: a one-step run of a
foreground layer with the fixture draws. -/
theorem foreground_height_in_range_witness :
    (∀ st ∈ [Step.mk rTickHi Option.none 0], RandTick.Valid st.r) ∧
    MIN_HEIGHT GroundLayerType.foreground ≤
      (runSteps [Step.mk rTickHi Option.none 0]
        (GroundLayer.new 4 GroundLayerType.foreground 0 12 16)).activeHeight ∧
    (runSteps [Step.mk rTickHi Option.none 0]
      (GroundLayer.new 4 GroundLayerType.foreground 0 12 16)).activeHeight ≤
      MAX_HEIGHT GroundLayerType.foreground :=
  ⟨fun st hm => by
      rw [List.mem_singleton] at hm
      rw [hm]
      exact rTickHi_valid,
    foreground_height_in_range 4 0 12 16 [Step.mk rTickHi Option.none 0]
      (fun st hm => by
        rw [List.mem_singleton] at hm
        rw [hm]
        exact rTickHi_valid)⟩

end GroundLayer
